import Mathlib

/-!
A verification development for the beast-consultancy backend
(`backend/app.py`): a shallow embedding in Lean 4 of the request-parsing
coercions and of the recommendation core (eligibility filter, academic
classification, budget fit, English check, risk flags, narrative text,
ranking/selection and global advice), followed by theorems about the
embedded code.

Modelling conventions:
* Python floats are modelled as exact rationals (`ℚ`); all the comparisons
  the code performs are order comparisons against simple decimal constants.
* Python `None` / absent dictionary keys are modelled with `Option`;
  `x.get(k, d) or d` collapses an absent key, `None` and a falsy value to
  the default, written `or_zero` below for the numeric `or 0` uses.
* The loosely-typed JSON request values are modelled by `PyVal`, with
  Python's `float()` / `int()` coercions (`py_float` / `py_int`) returning
  `Except PyErr` — `ValueError` for an unparsable string, `TypeError` for a
  `None` argument, exactly as CPython raises them.  The decimal-string
  grammar of `float()` is modelled for plain signed decimal numerals
  (exponent, `inf` and `nan` forms are not needed by any claim and are
  conservatively rejected here as unparsable is *not* assumed: no theorem
  below depends on the outcome of parsing such a string).
* Python's `list.sort(key=...)` is a stable sort; it is embedded as
  `List.insertionSort` (the canonical stable sort in Mathlib) over the
  decidable total preorder `card_le` induced by the sort key
  `(level_order(level_band), total_first_year_cost_lakhs)`.
* The transport layer (Flask routing, CORS, JSON marshalling), the
  `generated_at` timestamp and the catalog file loading are outside the
  embedded core, per the spec's scoping; the core is parametrised by the
  flattened course list and the country-by-code lookup that `load_db`
  produces.
-/

namespace Beast

/- The Batteries rational-number operations are `@[irreducible]` by
default; the concrete witness theorems below evaluate the embedded
pipeline with `decide`, which needs them to unfold. -/
attribute [local semireducible] Rat.add Rat.sub Rat.mul Rat.inv Rat.ofScientific

/-! ### JSON request values and Python numeric coercions -/

/-- A loosely-typed JSON value as the request parser sees one. -/
inductive PyVal where
  | none
  | bool (b : Bool)
  | int (n : Int)
  | num (q : ℚ)
  | str (s : String)
deriving DecidableEq, Inhabited

/-- The two exception classes the numeric coercions in `recommend` can
raise: `float("abc")` / `int("abc")` raise `ValueError`, while
`float(None)` / `int(None)` raise `TypeError`. -/
inductive PyErr where
  | valueError
  | typeError
deriving DecidableEq, Inhabited

/-- Python truthiness on `PyVal` (used by the `or` defaults in
`recommend`): `None`, `False`, `0`, `0.0` and `""` are falsy. -/
def py_truthy : PyVal → Bool
  | .none => false
  | .bool b => b
  | .int n => !(n == 0)
  | .num q => !(q == 0)
  | .str s => !(s == "")

/-- The numeric value of a digit list, most significant first. -/
def digits_to_nat (l : List Char) : ℕ :=
  l.foldl (fun a c => 10 * a + (c.toNat - 48)) 0

/-- Leading and trailing whitespace removed (Python `float()`/`int()`
strip whitespace around the numeral). -/
def strip_spaces (l : List Char) : List Char :=
  ((l.dropWhile Char.isWhitespace).reverse.dropWhile Char.isWhitespace).reverse

/-- An optional leading sign: `(negative?, rest)`. -/
def parse_sign : List Char → Bool × List Char
  | '-' :: t => (true, t)
  | '+' :: t => (false, t)
  | t => (false, t)

/-- Model of CPython `float(s)` on plain signed decimal numerals:
`"8.2"`, `"-3"`, `" 7. "`, `".5"` parse; `"abc"`, `""`, `"."` do not. -/
def parse_decimal_string (s : String) : Option ℚ :=
  let cs := strip_spaces s.toList
  let sr := parse_sign cs
  let rest := sr.2
  let ip := rest.takeWhile Char.isDigit
  let rest2 := rest.dropWhile Char.isDigit
  let mag : Option ℚ :=
    match rest2 with
    | [] => if ip.isEmpty then Option.none else some ((digits_to_nat ip : ℚ))
    | '.' :: frac =>
      if frac.all Char.isDigit ∧ ¬(ip.isEmpty ∧ frac.isEmpty) then
        some ((digits_to_nat ip : ℚ) + (digits_to_nat frac : ℚ) / ((10 : ℚ) ^ frac.length))
      else Option.none
    | _ => Option.none
  mag.map (fun q => if sr.1 then -q else q)

/-- Model of CPython `int(s)`: only signed integer numerals parse
(`int("3.5")` raises `ValueError`). -/
def parse_int_string (s : String) : Option Int :=
  let cs := strip_spaces s.toList
  let sr := parse_sign cs
  let rest := sr.2
  if rest.isEmpty ∨ ¬ rest.all Char.isDigit then Option.none
  else some (if sr.1 then -(digits_to_nat rest : Int) else (digits_to_nat rest : Int))

/-- CPython `int()` truncates a float toward zero. -/
def py_trunc (q : ℚ) : Int := if 0 ≤ q then ⌊q⌋ else ⌈q⌉

/-- CPython `float(v)` on a JSON value: numbers and booleans convert, an
unparsable string raises `ValueError`, `None` raises `TypeError`. -/
def py_float : PyVal → Except PyErr ℚ
  | .none => .error .typeError
  | .bool b => .ok (if b then 1 else 0)
  | .int n => .ok (n : ℚ)
  | .num q => .ok q
  | .str s =>
    match parse_decimal_string s with
    | some q => .ok q
    | Option.none => .error .valueError

/-- CPython `int(v)` on a JSON value. -/
def py_int : PyVal → Except PyErr Int
  | .none => .error .typeError
  | .bool b => .ok (if b then 1 else 0)
  | .int n => .ok n
  | .num q => .ok (py_trunc q)
  | .str s =>
    match parse_int_string s with
    | some n => .ok n
    | Option.none => .error .valueError

/-- The per-field pattern of `recommend` (app.py lines 597-621) for
`cgpa`, `budget_lakhs`, `work_ex_years` and `english_score`:
`try: x = float(data.get(key, 0)) except ValueError: x = 0.0`.
Only `ValueError` is caught; a `TypeError` propagates. -/
def coerce_float_field (v : Option PyVal) : Except PyErr ℚ :=
  match py_float (v.getD (.int 0)) with
  | .ok q => .ok q
  | .error .valueError => .ok 0
  | .error .typeError => .error .typeError

/-- The same pattern with `int` for `backlogs_count` (lines 607-610). -/
def coerce_int_field (v : Option PyVal) : Except PyErr Int :=
  match py_int (v.getD (.int 0)) with
  | .ok n => .ok n
  | .error .valueError => .ok 0
  | .error .typeError => .error .typeError

/-- `requested_count = int(data.get("requested_count", 5) or 5)` then
`requested_count = max(1, min(requested_count, 15))` (lines 703-704).
Note there is no `try`/`except` around this `int()` call. -/
def parse_requested_count (v : Option PyVal) : Except PyErr Int :=
  let raw := v.getD (.int 5)
  let raw2 := if py_truthy raw then raw else .int 5
  match py_int raw2 with
  | .ok n => .ok (max 1 (min n 15))
  | .error e => .error e

/-! ### Catalog data model

Record types for the loosely-typed country / university / course
dictionaries, with `Option` for the keys the code reads through `.get`
and may find absent or `None`.  Keys the code reads with a non-`None`
default (`accepts_backlog_history`, `inter_english_ok`, the boolean
course flags, `typical_scholarship_lakhs`) are stored with that default
already applied, which is observationally identical. -/

structure Country where
  code : String
  name : String
  flag : String
  allow_inter_english : Bool
  admission_notes : Option String
  reasons_to_choose : List String
  work_during_studies_hours_per_week : Option Int
  post_study_work_options : Option String
deriving DecidableEq, Inhabited

structure University where
  name : String
  city : String
  tier_band : Option String
  visa_risk : Option String
  highlights : List String
  cautions : List String
  city_notes : Option String
  ranking_band_global : Option String
deriving DecidableEq, Inhabited

structure Course where
  id : Option String
  name : Option String
  subject_cluster : Option String
  min_cgpa_india : Option ℚ
  max_backlogs : Option Int
  accepts_backlog_history : Bool
  tuition_fee_lakhs : Option ℚ
  estimated_living_lakhs : Option ℚ
  extra_costs_lakhs : Option ℚ
  min_ielts_overall : Option ℚ
  min_pte_overall : Option ℚ
  min_duolingo : Option ℚ
  inter_english_ok : Bool
  math_required : Bool
  coding_required : Bool
  work_exp_required_years : Option ℚ
  is_flagship : Bool
  with_placement : Bool
  typical_scholarship_lakhs : ℚ
  intakes : List String
  course_highlights : List String
  course_cautions : List String
  official_course_url : Option String
deriving DecidableEq, Inhabited

/-- One entry of `DB["flat_courses"]` as `load_db` builds it: the course
with its university and country attached and denormalised fields. -/
structure Merged where
  country_code : String
  country_name : String
  country : Country
  university_name : String
  university : University
  city : String
  course : Course
deriving DecidableEq, Inhabited

/-- The normalised per-request `profile` dict of `recommend`. -/
structure StudentProfile where
  name : String
  country_code : String
  cgpa : ℚ
  backlogs_count : Int
  english_proof_type : String
  english_score : ℚ
  budget_lakhs : ℚ
  work_ex_years : ℚ
  non_math_background : Bool
  target_intake : String
  intake_month : String
deriving DecidableEq, Inhabited

/-- `x.get(key, 0) or 0`: an absent key, `None` and `0` all become `0`. -/
def or_zero (o : Option ℚ) : ℚ := o.getD 0

/-! ### Helper functions of app.py -/

/-- `classify_level` (app.py lines 116-135). -/
def classify_level (cgpa : ℚ) (min_cgpa : Option ℚ) : String :=
  match min_cgpa with
  | Option.none => "unknown"
  | some m =>
    let diff := cgpa - m
    if diff ≥ 1 then "safe"
    else if diff ≥ 0 then "moderate"
    else if diff ≥ -(0.5 : ℚ) then "ambitious"
    else "reject"

/-- `budget_fit_label` (app.py lines 138-146). -/
def budget_fit_label (total_cost budget : ℚ) : String :=
  if budget ≤ 0 then "unknown"
  else if total_cost ≤ (0.8 : ℚ) * budget then "very_comfortable"
  else if total_cost ≤ budget then "tight_but_possible"
  else "over_budget"

/-- `build_tier_label` (app.py lines 149-157): the fixed five-way lookup
with default "General university". -/
def build_tier_label (tier_band : Option String) : String :=
  if tier_band = some "russell_group_top" then "Russell Group / Top UK research university"
  else if tier_band = some "public_research" then "Public research university"
  else if tier_band = some "teaching_focused" then "Teaching-focused / modern university"
  else if tier_band = some "general_public" then "General public university"
  else if tier_band = some "private" then "Private / specialist institution"
  else "General university"

/-- `english_ok_for_course` (app.py lines 160-202), parametrised by the
module-level `COUNTRY_BY_CODE` lookup.  Returns `(ok, gap)`.  The
profile's proof type is a lowercased string (never Python `None` after
normalisation), so the source's `proof in ("none", None, "")` test is the
two string comparisons. -/
def english_ok_for_course (country_by_code : String → Option Country)
    (course : Course) (profile : StudentProfile) : Bool × Bool :=
  let proof := profile.english_proof_type
  let score := profile.english_score
  if proof = "none" ∨ proof = "" then (false, true)
  else if proof = "ielts" then
    match course.min_ielts_overall with
    | Option.none => (true, false)
    | some m => (decide (score ≥ m), decide (score < m))
  else if proof = "pte" then
    match course.min_pte_overall with
    | Option.none => (true, false)
    | some m => (decide (score ≥ m), decide (score < m))
  else if proof = "duolingo" then
    match course.min_duolingo with
    | Option.none => (true, false)
    | some m => (decide (score ≥ m), decide (score < m))
  else if proof = "inter" ∨ proof = "medium" then
    if course.inter_english_ok
        ∧ ((country_by_code profile.country_code).map Country.allow_inter_english).getD false then
      (true, false)
    else (false, true)
  else (false, true)

/-- `build_why_country` (app.py lines 205-227).  `if notes:` and
`if work_hrs:` are Python truthiness tests, so an empty string or a zero
hour count is skipped. -/
def build_why_country (country : Country) : List String :=
  country.reasons_to_choose.take 3
    ++ (match country.admission_notes with
        | some notes => if notes = "" then [] else [notes]
        | Option.none => [])
    ++ (match country.work_during_studies_hours_per_week with
        | some work_hrs =>
          if work_hrs = 0 then []
          else ["Can usually work up to " ++ toString work_hrs
                ++ " hours/week during studies (check latest official rules)."]
        | Option.none => [])
    ++ (match country.post_study_work_options with
        | some psw => if psw = "" then [] else ["Post-study work route: " ++ psw]
        | Option.none => [])

/-- `build_why_university` (app.py lines 230-243). -/
def build_why_university (uni : University) : List String :=
  uni.highlights.take 3
    ++ (match uni.city_notes with
        | some city_notes => if city_notes = "" then [] else [city_notes]
        | Option.none => [])
    ++ (match uni.ranking_band_global with
        | some ranking =>
          if ranking = "" then [] else ["Approx global ranking band: " ++ ranking ++ "."]
        | Option.none => [])

/-- `build_why_course` (app.py lines 246-257). -/
def build_why_course (course : Course) : List String :=
  course.course_highlights.take 3
    ++ (if course.with_placement then
          ["Includes placement / internship component (subject to availability)."]
        else [])
    ++ (if course.is_flagship then
          ["Flagship program of the university in this subject area."]
        else [])

/-- `build_pros` (app.py lines 260-266): capped to 8 entries. -/
def build_pros (merged : Merged) : List String :=
  (merged.university.highlights ++ merged.course.course_highlights).take 8

/-- `build_cons` (app.py lines 269-280): capped to 8, with a generic
caution substituted when the combined list is empty. -/
def build_cons (merged : Merged) : List String :=
  let cons := merged.university.cautions ++ merged.course.course_cautions
  let cons :=
    if cons.isEmpty then
      ["No major public red flags, but always cross-check recent reviews, outcomes and visa updates."]
    else cons
  cons.take 8

/-- The fixed flag record of `compute_risk_flags`. -/
structure RiskFlags where
  budget_risk : Bool
  english_gap : Bool
  cgpa_gap : Bool
  math_risk : Bool
  workex_gap : Bool
  visa_risk_high : Bool
deriving DecidableEq, Inhabited

/-- `compute_risk_flags` (app.py lines 283-302). -/
def compute_risk_flags (merged : Merged) (profile : StudentProfile)
    (level_band : String) (english_gap : Bool) (budget_label : String) : RiskFlags :=
  { budget_risk := budget_label == "over_budget"
    english_gap := english_gap
    cgpa_gap := level_band == "ambitious"
    math_risk := merged.course.math_required && profile.non_math_background
    workex_gap := decide ((merged.course.work_exp_required_years.getD 0) > profile.work_ex_years)
    visa_risk_high := merged.university.visa_risk == some "high" }

/-- The `english_req` sub-dict of a card. -/
structure EnglishRequirement where
  min_ielts_overall : Option ℚ
  min_pte_overall : Option ℚ
  min_duolingo : Option ℚ
  inter_english_ok : Bool
  country_allows_inter : Bool
  english_ok_now : Bool
deriving DecidableEq, Inhabited

/-- The card dict returned by `build_course_response`. -/
structure RecommendationCard where
  course_id : Option String
  country_code : String
  country_name : String
  university_name : String
  city : String
  course_name : Option String
  subject_cluster : Option String
  level_band : String
  visa_risk : Option String
  tier_label : String
  tuition_fee_lakhs : ℚ
  estimated_living_lakhs : ℚ
  extra_costs_lakhs : ℚ
  total_first_year_cost_lakhs : ℚ
  budget_label : String
  intakes : List String
  intakes_text : String
  math_required : Bool
  coding_required : Bool
  is_flagship : Bool
  with_placement : Bool
  typical_scholarship_lakhs : ℚ
  english_requirement : EnglishRequirement
  why_country : List String
  why_university : List String
  why_course : List String
  pros : List String
  cons : List String
  risk_flags : RiskFlags
  short_advice : String
  official_course_url : Option String
deriving DecidableEq, Inhabited

/-- The `budget_text_map` dict of `build_course_response` (lines 358-363),
as a total function: the label is always one of the four keys, and the
fourth branch carries the "unknown" text. -/
def budget_text_map (budget_label : String) : String :=
  if budget_label = "very_comfortable" then "Your budget is very comfortable for this option."
  else if budget_label = "tight_but_possible" then
    "Your budget is just enough; you must manage money carefully."
  else if budget_label = "over_budget" then
    "This is above your current stated budget. Consider scholarships or higher funds."
  else "Budget evaluation not available."

/-- `build_course_response` (app.py lines 305-423): classifies the course
for the profile, drops it (returns `none`) when the band is "reject", and
otherwise assembles the full card. -/
def build_course_response (country_by_code : String → Option Country)
    (merged : Merged) (profile : StudentProfile) : Option RecommendationCard :=
  let country := merged.country
  let uni := merged.university
  let course := merged.course
  let cgpa := profile.cgpa
  let min_cgpa := or_zero course.min_cgpa_india
  let level_band := classify_level cgpa (some min_cgpa)
  if level_band = "reject" then Option.none
  else
    let tuition := or_zero course.tuition_fee_lakhs
    let living := or_zero course.estimated_living_lakhs
    let extra := or_zero course.extra_costs_lakhs
    let total := tuition + living + extra
    let budget := profile.budget_lakhs
    let budget_label := budget_fit_label total budget
    let eng := english_ok_for_course country_by_code course profile
    let english_ok := eng.1
    let english_gap := eng.2
    let risks := compute_risk_flags merged profile level_band english_gap budget_label
    let tier_label := build_tier_label uni.tier_band
    let intakes := course.intakes
    let intakes_text := if intakes.isEmpty then "Not specified" else String.intercalate " / " intakes
    let advice_parts : List String :=
      (if level_band = "safe" then ["Academically this is a SAFE match for your CGPA."]
       else if level_band = "moderate" then
         ["Academically this is a MODERATE (balanced) match for your CGPA."]
       else if level_band = "ambitious" then
         ["This is an AMBITIOUS option for your CGPA. You must show strong projects/SOP."]
       else [])
      ++ [budget_text_map budget_label]
      ++ (if english_gap then
            ["You must improve or prove English (IELTS/PTE/Duolingo) to match this course requirement."]
          else [])
      ++ (if risks.math_risk then
            ["Strong maths is required – revise core maths & statistics before going for this program."]
          else [])
      ++ (if risks.workex_gap then
            ["More relevant full-time work experience would make your profile stronger for this course."]
          else [])
    some
      { course_id := course.id
        country_code := country.code
        country_name := country.name
        university_name := uni.name
        city := uni.city
        course_name := course.name
        subject_cluster := course.subject_cluster
        level_band := level_band
        visa_risk := uni.visa_risk
        tier_label := tier_label
        tuition_fee_lakhs := tuition
        estimated_living_lakhs := living
        extra_costs_lakhs := extra
        total_first_year_cost_lakhs := total
        budget_label := budget_label
        intakes := intakes
        intakes_text := intakes_text
        math_required := course.math_required
        coding_required := course.coding_required
        is_flagship := course.is_flagship
        with_placement := course.with_placement
        typical_scholarship_lakhs := course.typical_scholarship_lakhs
        english_requirement :=
          { min_ielts_overall := course.min_ielts_overall
            min_pte_overall := course.min_pte_overall
            min_duolingo := course.min_duolingo
            inter_english_ok := course.inter_english_ok
            country_allows_inter := country.allow_inter_english
            english_ok_now := english_ok }
        why_country := build_why_country country
        why_university := build_why_university uni
        why_course := build_why_course course
        pros := build_pros merged
        cons := build_cons merged
        risk_flags := risks
        short_advice := String.intercalate " " advice_parts
        official_course_url := course.official_course_url }

/-! ### The recommend pipeline -/

/-- The `level_order` dict of `recommend` (line 695) together with its
`.get(..., 3)` default: safe 0, moderate 1, ambitious 2, anything else
(including "unknown") 3. -/
def level_order (band : String) : ℕ :=
  if band = "safe" then 0
  else if band = "moderate" then 1
  else if band = "ambitious" then 2
  else 3

/-- The total preorder induced by the Python sort key
`(level_order[level_band], total_first_year_cost_lakhs)` (lines 696-701). -/
def card_le (c1 c2 : RecommendationCard) : Prop :=
  level_order c1.level_band < level_order c2.level_band
    ∨ (level_order c1.level_band = level_order c2.level_band
        ∧ c1.total_first_year_cost_lakhs ≤ c2.total_first_year_cost_lakhs)

instance card_le_decidable : DecidableRel card_le := fun c1 c2 =>
  inferInstanceAs (Decidable (Or _ _))

instance card_le_total : IsTotal RecommendationCard card_le := by
  constructor
  intro a b
  unfold card_le
  rcases lt_trichotomy (level_order a.level_band) (level_order b.level_band) with h | h | h
  · exact Or.inl (Or.inl h)
  · rcases le_total a.total_first_year_cost_lakhs b.total_first_year_cost_lakhs with hc | hc
    · exact Or.inl (Or.inr ⟨h, hc⟩)
    · exact Or.inr (Or.inr ⟨h.symm, hc⟩)
  · exact Or.inr (Or.inl h)

instance card_le_trans : IsTrans RecommendationCard card_le := by
  constructor
  intro a b c hab hbc
  unfold card_le at *
  rcases hab with h1 | ⟨h1, h1c⟩ <;> rcases hbc with h2 | ⟨h2, h2c⟩
  · exact Or.inl (h1.trans h2)
  · exact Or.inl (h2 ▸ h1)
  · exact Or.inl (h1 ▸ h2)
  · exact Or.inr ⟨h1.trans h2, h1c.trans h2c⟩

/-- The ranking-and-selection step of `recommend` (app.py lines 690-710),
on the pre-truncation card pool: remember the ambitious cards of the pool
(in pool order, before sorting), sort stably by the
`(level_band_rank, total cost)` key, truncate to `requested_count`, and
append the first ambitious pool card when the truncation left none. -/
def select_items (pool : List RecommendationCard) (requested_count : ℕ) :
    List RecommendationCard :=
  let ambitious_items := pool.filter (fun c => c.level_band == "ambitious")
  let sorted := List.insertionSort card_le pool
  let truncated := sorted.take requested_count
  if truncated.any (fun c => c.level_band == "ambitious") then truncated
  else
    match ambitious_items with
    | [] => truncated
    | a :: _ => truncated ++ [a]

/-- The `advice` dict of `global_advice_from_results`. -/
structure GlobalAdvice where
  headline : String
  english_advice : String
  budget_advice : String
  profile_gaps : List String
  next_steps : List String
deriving DecidableEq, Inhabited

/-- `global_advice_from_results` (app.py lines 426-508). -/
def global_advice_from_results (country : Country) (profile : StudentProfile)
    (course_items : List RecommendationCard) : GlobalAdvice :=
  if course_items.isEmpty then
    { headline := "No strong matches found in this country with current filters."
      english_advice := ""
      budget_advice := ""
      profile_gaps := []
      next_steps :=
        ["Try improving IELTS/PTE score, increasing budget, or exploring more teaching-focused universities.",
         "You can also try a different country or slightly different course combination (e.g., general CS instead of AI-only)."] }
  else
    let safe_count := course_items.countP (fun c => c.level_band == "safe")
    let mod_count := course_items.countP (fun c => c.level_band == "moderate")
    let amb_count := course_items.countP (fun c => c.level_band == "ambitious")
    let headline :=
      if safe_count ≥ 3 then
        "You have several SAFE options – shortlist 2–3 safe and keep 1–2 ambitious as backup."
      else if mod_count > 0 ∨ amb_count > 0 then
        "Most options are MODERATE or AMBITIOUS – you need strong projects, SOP and LORs."
      else ""
    let needs_test := profile.english_proof_type = "none" ∨ profile.english_proof_type = "inter"
      ∨ profile.english_proof_type = "medium"
    let english_advice :=
      if needs_test then
        "Taking IELTS / PTE / Duolingo will open many more universities and make visa stronger, even if some accept Inter/Medium English."
      else
        "Your chosen English test looks okay; just ensure you meet each course's minimum sub-scores."
    let over_budget_count := course_items.countP (fun c => c.budget_label == "over_budget")
    let budget_advice :=
      if over_budget_count > 0 then
        "Some options are above your current budget. Plan for extra funds, education loans or scholarships, or target lower-cost cities/universities."
      else "Your budget seems reasonable for the recommended universities."
    let profile_gaps :=
      (if course_items.any (fun c => c.risk_flags.math_risk) then
        ["Strengthen your maths and statistics basics – especially for Data Science / AI / Analytics programs."]
       else [])
      ++ (if course_items.any (fun c => c.risk_flags.workex_gap) then
            ["More relevant full-time work experience will make your MBA / Project Management profile much stronger."]
          else [])
    let next_steps :=
      (if country.name = "United Kingdom" then
        ["For the UK, track university application deadlines and CAS dates and always confirm latest UKVI visa rules."]
       else if country.name = "United States" then
         ["For the US, check if GRE/GMAT is recommended for your course and plan applications 8–12 months before intake."]
       else [])
      ++ ["Prepare a strong SOP, updated CV, transcripts, and at least 1–2 solid LORs before you start applying."]
    { headline := headline
      english_advice := english_advice
      budget_advice := budget_advice
      profile_gaps := profile_gaps
      next_steps := next_steps }

/-- The hard filter of `recommend` (app.py lines 648-679): country match,
optional subject-cluster membership, the two backlog rules, and the CGPA
strictness gate.  The intake block (lines 667-671) is an explicit no-op in
the source and adds no condition. -/
def passes_filter (profile : StudentProfile) (subject_clusters : List String)
    (merged : Merged) : Bool :=
  merged.country_code == profile.country_code
    && (subject_clusters.isEmpty
        || subject_clusters.contains (merged.course.subject_cluster.getD ""))
    && (match merged.course.max_backlogs with
        | some max_backlogs => decide (profile.backlogs_count ≤ max_backlogs)
        | Option.none => true)
    && (merged.course.accepts_backlog_history || decide (profile.backlogs_count ≤ 0))
    && !(classify_level profile.cgpa (some (or_zero merged.course.min_cgpa_india)) == "reject")

/-- The `stats` dict of the response (lines 725-731). -/
structure Stats where
  total_matches_before_limit : ℕ
  total_shown : ℕ
  safe_count : ℕ
  moderate_count : ℕ
  ambitious_count : ℕ
deriving DecidableEq, Inhabited

/-- The response object (lines 717-734); the `generated_at` timestamp and
the profile echo are transport-layer data outside the embedded core. -/
structure RecResponse where
  country_code : String
  country_name : String
  country_flag : String
  stats : Stats
  recommendations : List RecommendationCard
  global_advice : GlobalAdvice
deriving DecidableEq, Inhabited

/-- The core of the `recommend` endpoint (app.py lines 643-736), after the
request fields have been parsed into `profile` and the requested count has
been clamped: filter the flat course list, build the cards, rank, select
and assemble stats and global advice. -/
def recommend_core (flat_courses : List Merged) (country_by_code : String → Option Country)
    (country : Country) (profile : StudentProfile) (subject_clusters : List String)
    (requested_count : ℕ) : RecResponse :=
  let matched := flat_courses.filter (passes_filter profile subject_clusters)
  let pool := matched.filterMap (fun m => build_course_response country_by_code m profile)
  let course_items := select_items pool requested_count
  { country_code := country.code
    country_name := country.name
    country_flag := country.flag
    stats :=
      { total_matches_before_limit := matched.length
        total_shown := course_items.length
        safe_count := course_items.countP (fun c => c.level_band == "safe")
        moderate_count := course_items.countP (fun c => c.level_band == "moderate")
        ambitious_count := course_items.countP (fun c => c.level_band == "ambitious") }
    recommendations := course_items
    global_advice := global_advice_from_results country profile course_items }

/-! ### Concrete fixtures used by the witness theorems -/

/-- A UK country record. -/
def country_uk : Country :=
  { code := "UK", name := "United Kingdom", flag := "", allow_inter_english := true
    admission_notes := Option.none, reasons_to_choose := []
    work_during_studies_hours_per_week := Option.none, post_study_work_options := Option.none }

/-- A country lookup with the single UK record. -/
def lookup_uk : String → Option Country :=
  fun code => if code == "UK" then some country_uk else Option.none

/-- A data-science course with a CGPA floor of 7 and an IELTS minimum of 6. -/
def course_fix : Course :=
  { (default : Course) with
      subject_cluster := some "data_science", min_cgpa_india := some 7
      min_ielts_overall := some 6, tuition_fee_lakhs := some 20
      estimated_living_lakhs := some 4, extra_costs_lakhs := some 1
      accepts_backlog_history := true }

/-- A course with no stated English minimum for any test. -/
def course_nomin : Course := { (default : Course) with accepts_backlog_history := true }

/-- A course flagged as accepting Inter/Medium English. -/
def course_inter : Course :=
  { (default : Course) with inter_english_ok := true, accepts_backlog_history := true }

def uni_fix : University :=
  { name := "U1", city := "London", tier_band := Option.none, visa_risk := Option.none
    highlights := [], cautions := [], city_notes := Option.none
    ranking_band_global := Option.none }

/-- A flat-course entry for `course_fix` at `uni_fix` in the UK. -/
def merged_fix : Merged :=
  { country_code := "UK", country_name := "United Kingdom", country := country_uk
    university_name := "U1", university := uni_fix, city := "London", course := course_fix }

/-- A profile that passes every filter for `merged_fix`. -/
def profile_fix : StudentProfile :=
  { (default : StudentProfile) with
      country_code := "UK", cgpa := 8.2, english_proof_type := "ielts"
      english_score := 6.5, budget_lakhs := 30 }

/-- A profile with no English proof. -/
def profile_none : StudentProfile :=
  { (default : StudentProfile) with country_code := "UK", english_proof_type := "none" }

/-- A profile claiming Inter/Medium English. -/
def profile_inter : StudentProfile :=
  { (default : StudentProfile) with country_code := "UK", english_proof_type := "inter" }

/-- A safe cheap card and an ambitious card, for the selection witness. -/
def card_safe : RecommendationCard :=
  { (default : RecommendationCard) with level_band := "safe", total_first_year_cost_lakhs := 10 }

def card_amb : RecommendationCard :=
  { (default : RecommendationCard) with
      level_band := "ambitious", total_first_year_cost_lakhs := 12 }

/-- A two-card pool whose only ambitious card is the most expensive. -/
def pool3 : List RecommendationCard := [card_amb, card_safe]

/-- The first card the pipeline recommends on the one-course catalog. -/
def card_fix : RecommendationCard :=
  (recommend_core [merged_fix] lookup_uk country_uk profile_fix [] 5).recommendations.headI

/-! ### Helper lemmas -/

theorem classify_level_some (cgpa m : ℚ) :
    classify_level cgpa (some m) =
      (if cgpa - m ≥ 1 then "safe"
       else if cgpa - m ≥ 0 then "moderate"
       else if cgpa - m ≥ -(0.5 : ℚ) then "ambitious"
       else "reject") := rfl

theorem classify_level_some_cases (cgpa m : ℚ) :
    classify_level cgpa (some m) = "safe" ∨ classify_level cgpa (some m) = "moderate"
      ∨ classify_level cgpa (some m) = "ambitious"
      ∨ classify_level cgpa (some m) = "reject" := by
  rw [classify_level_some]
  split_ifs <;> simp

theorem build_level_band {lookup : String → Option Country} {m : Merged}
    {p : StudentProfile} {card : RecommendationCard}
    (h : build_course_response lookup m p = some card) :
    card.level_band = classify_level p.cgpa (some (or_zero m.course.min_cgpa_india))
      ∧ card.level_band ≠ "reject" := by
  simp only [build_course_response] at h
  split at h
  · simp at h
  · next hne =>
      rw [Option.some.injEq] at h
      subst h
      exact ⟨rfl, hne⟩

theorem build_band_three {lookup : String → Option Country} {m : Merged}
    {p : StudentProfile} {card : RecommendationCard}
    (h : build_course_response lookup m p = some card) :
    card.level_band = "safe" ∨ card.level_band = "moderate"
      ∨ card.level_band = "ambitious" := by
  obtain ⟨hband, hne⟩ := build_level_band h
  rcases classify_level_some_cases p.cgpa (or_zero m.course.min_cgpa_india) with h1 | h1 | h1 | h1
  · exact Or.inl (hband.trans h1)
  · exact Or.inr (Or.inl (hband.trans h1))
  · exact Or.inr (Or.inr (hband.trans h1))
  · exact absurd (hband.trans h1) hne

theorem passes_filter_not_reject {p : StudentProfile} {scs : List String} {m : Merged}
    (h : passes_filter p scs m = true) :
    classify_level p.cgpa (some (or_zero m.course.min_cgpa_india)) ≠ "reject" := by
  simp only [passes_filter, Bool.and_eq_true, Bool.not_eq_true', beq_eq_false_iff_ne,
    ne_eq] at h
  exact h.2

theorem build_ne_none_of_passes {lookup : String → Option Country} {p : StudentProfile}
    {scs : List String} {m : Merged} (h : passes_filter p scs m = true) :
    build_course_response lookup m p ≠ Option.none := by
  have hr := passes_filter_not_reject h
  simp only [build_course_response]
  rw [if_neg hr]
  simp

theorem length_filterMap_of_ne_none {α β : Type} (f : α → Option β) :
    ∀ l : List α, (∀ x ∈ l, f x ≠ Option.none) → (l.filterMap f).length = l.length := by
  intro l
  induction l with
  | nil => simp
  | cons a t ih =>
    intro h
    have ha := h a (List.mem_cons_self a t)
    rcases hfa : f a with _ | b
    · exact absurd hfa ha
    · simp [List.filterMap_cons, hfa, ih (fun x hx => h x (List.mem_cons_of_mem a hx))]

theorem countP_bands (l : List RecommendationCard)
    (h : ∀ c ∈ l, c.level_band = "safe" ∨ c.level_band = "moderate"
          ∨ c.level_band = "ambitious") :
    l.countP (fun c => c.level_band == "safe")
        + l.countP (fun c => c.level_band == "moderate")
        + l.countP (fun c => c.level_band == "ambitious") = l.length := by
  induction l with
  | nil => simp
  | cons a t ih =>
    have ha := h a (List.mem_cons_self a t)
    have ht := ih (fun c hc => h c (List.mem_cons_of_mem a hc))
    rcases ha with ha | ha | ha <;> simp [List.countP_cons, ha] <;> omega

theorem filter_head_ambitious {pool : List RecommendationCard}
    {a : RecommendationCard} {rest : List RecommendationCard}
    (hfil : pool.filter (fun c => c.level_band == "ambitious") = a :: rest) :
    a.level_band = "ambitious" ∧ a ∈ pool := by
  have ha : a ∈ pool.filter (fun c => c.level_band == "ambitious") := by
    rw [hfil]; exact List.mem_cons_self a rest
  have h2 := List.mem_filter.mp ha
  exact ⟨by simpa using h2.2, h2.1⟩

theorem mem_select_items {pool : List RecommendationCard} {rc : ℕ}
    {c : RecommendationCard} (h : c ∈ select_items pool rc) : c ∈ pool := by
  have hsub : ∀ x ∈ (List.insertionSort card_le pool).take rc, x ∈ pool := fun x hx =>
    (List.perm_insertionSort card_le pool).subset (List.take_subset _ _ hx)
  simp only [select_items] at h
  split at h
  · exact hsub c h
  · rcases hfil : pool.filter (fun c => c.level_band == "ambitious") with _ | ⟨a, rest⟩
    · simp only [hfil] at h
      exact hsub c h
    · simp only [hfil] at h
      rcases List.mem_append.mp h with h1 | h2
      · exact hsub c h1
      · have hca : c = a := by simpa using h2
        subst hca
        exact (filter_head_ambitious hfil).2

theorem level_order_lt_two {band : String}
    (h3 : band = "safe" ∨ band = "moderate" ∨ band = "ambitious")
    (hne : band ≠ "ambitious") : level_order band < 2 := by
  rcases h3 with h | h | h <;> subst h <;> simp [level_order] at hne ⊢

theorem sorted_select_items (pool : List RecommendationCard) (rc : ℕ)
    (hb : ∀ c ∈ pool, c.level_band = "safe" ∨ c.level_band = "moderate"
          ∨ c.level_band = "ambitious") :
    List.Sorted card_le (select_items pool rc) := by
  have hs : List.Sorted card_le (List.insertionSort card_le pool) :=
    List.sorted_insertionSort card_le pool
  have ht : List.Sorted card_le ((List.insertionSort card_le pool).take rc) :=
    List.Pairwise.sublist (List.take_sublist _ _) hs
  simp only [select_items]
  split
  · exact ht
  · next hany =>
      rcases hfil : pool.filter (fun c => c.level_band == "ambitious") with _ | ⟨a, rest⟩
      · simp only [hfil]
        exact ht
      · simp only [hfil]
        refine List.pairwise_append.mpr ⟨ht, List.pairwise_singleton _ _, ?_⟩
        intro c hc b hbmem
        have hba : b = a := by simpa using hbmem
        subst hba
        have hcp : c ∈ pool :=
          (List.perm_insertionSort card_le pool).subset (List.take_subset _ _ hc)
        have hcamb : c.level_band ≠ "ambitious" := by
          intro hc2
          exact hany (List.any_eq_true.mpr ⟨c, hc, by simp [hc2]⟩)
        have h1 : level_order c.level_band < 2 := level_order_lt_two (hb c hcp) hcamb
        have h2 : level_order b.level_band = 2 := by
          rw [(filter_head_ambitious hfil).1]
          decide
        exact Or.inl (by rw [h2]; exact h1)

theorem mem_recommendations_band_three {flat : List Merged}
    {lookup : String → Option Country} {country : Country} {p : StudentProfile}
    {scs : List String} {rc : ℕ} {c : RecommendationCard}
    (h : c ∈ (recommend_core flat lookup country p scs rc).recommendations) :
    c.level_band = "safe" ∨ c.level_band = "moderate" ∨ c.level_band = "ambitious" := by
  have hp : c ∈ (flat.filter (passes_filter p scs)).filterMap
      (fun m => build_course_response lookup m p) := mem_select_items h
  rcases List.mem_filterMap.mp hp with ⟨m, _, hbuild⟩
  exact build_band_three hbuild

/-! ### The claims -/

/-- C1, corrected, counterexample: the claim says `requested_count` is
clamped into [1,15] even for a non-numeric string like "abc", but line 703
has no `try`/`except`, so `int("abc")` raises an uncaught `ValueError`
and no clamped value is produced. -/
theorem claim_C1_counterexample :
    parse_requested_count (some (PyVal.str "abc")) = Except.error PyErr.valueError := rfl

/-- C1, amended: whenever the `int()` conversion of
`data.get("requested_count", 5) or 5` succeeds, the result is clamped
into [1,15]; an absent field or a falsy value (null, 0, "", false)
defaults to 5; a negative parsed value clamps to 1 (it does not default
to 5); and the only failure mode is the `int()` conversion itself
raising, uncaught. -/
theorem claim_C1_requested_count_clamped (v : Option PyVal) :
    (∀ n : Int, parse_requested_count v = Except.ok n → 1 ≤ n ∧ n ≤ 15)
    ∧ parse_requested_count Option.none = Except.ok 5
    ∧ (∀ w, v = some w → py_truthy w = false → parse_requested_count v = Except.ok 5)
    ∧ (∀ w n, v = some w → py_truthy w = true → py_int w = Except.ok n → n < 1 →
        parse_requested_count v = Except.ok 1)
    ∧ (∀ e, parse_requested_count v = Except.error e →
        ∃ w, v = some w ∧ py_truthy w = true ∧ py_int w = Except.error e) := by
  refine ⟨?_, rfl, ?_, ?_, ?_⟩
  · intro n h
    simp only [parse_requested_count] at h
    rcases hpi : py_int (if py_truthy (v.getD (PyVal.int 5)) = true then v.getD (PyVal.int 5)
        else PyVal.int 5) with e | m
    · rw [hpi] at h
      simp at h
    · rw [hpi] at h
      simp only [Except.ok.injEq] at h
      subst h
      exact ⟨le_max_left 1 _, max_le (by norm_num) (min_le_right _ _)⟩
  · intro w hw hfalse
    subst hw
    simp only [parse_requested_count, Option.getD_some, hfalse, if_false]
    rfl
  · intro w n hw htrue hpi hn
    subst hw
    simp only [parse_requested_count, Option.getD_some, htrue, if_true, hpi]
    rw [min_eq_left (by omega), max_eq_left (by omega)]
  · intro e h
    rcases v with _ | w
    · simp [parse_requested_count, py_int, py_truthy] at h
    · by_cases htrue : py_truthy w = true
      · simp only [parse_requested_count, Option.getD_some, htrue, if_true] at h
        rcases hpi : py_int w with e2 | m
        · rw [hpi] at h
          simp only [Except.error.injEq] at h
          subst h
          exact ⟨w, rfl, htrue, hpi⟩
        · rw [hpi] at h
          simp at h
      · rw [Bool.not_eq_true] at htrue
        simp only [parse_requested_count, Option.getD_some, htrue, if_false] at h
        simp [py_int] at h

/-- Witness for C1: 100 clamps to 15 (within [1,15]), 0 defaults to 5,
-3 clamps to 1, and "abc" raises `ValueError`. -/
theorem claim_C1_requested_count_clamped_witness :
    ((1 : Int) ≤ 15 ∧ (15 : Int) ≤ 15)
    ∧ parse_requested_count (some (PyVal.int 0)) = Except.ok 5
    ∧ parse_requested_count (some (PyVal.int (-3))) = Except.ok 1
    ∧ (∃ w, (some (PyVal.str "abc") : Option PyVal) = some w ∧ py_truthy w = true
        ∧ py_int w = Except.error PyErr.valueError) :=
  ⟨(claim_C1_requested_count_clamped (some (PyVal.int 100))).1 15 rfl,
   (claim_C1_requested_count_clamped (some (PyVal.int 0))).2.2.1 (PyVal.int 0) rfl rfl,
   (claim_C1_requested_count_clamped (some (PyVal.int (-3)))).2.2.2.1
     (PyVal.int (-3)) (-3) rfl rfl rfl (by norm_num),
   (claim_C1_requested_count_clamped (some (PyVal.str "abc"))).2.2.2.2
     PyErr.valueError rfl⟩

/-- C2, corrected, counterexample: the claim says a null value for
cgpa/budget/backlogs/work-experience/English-score is coerced to zero and
no exception escapes, but `float(None)` raises `TypeError`, which the
`except ValueError` clause (lines 597-621) does not catch. -/
theorem claim_C2_counterexample :
    coerce_float_field (some PyVal.none) = Except.error PyErr.typeError := rfl

/-- C2, amended: a non-numeric *string* supplied for
cgpa/budget_lakhs/backlogs_count/work_ex_years/english_score is coerced
to numeric zero (the `ValueError` is caught) and an absent field defaults
to 0, but a null value raises a `TypeError` that escapes the handler —
and that is the only escaping case in the JSON value domain. -/
theorem claim_C2_soft_coercion (v : Option PyVal) :
    (∀ s, v = some (PyVal.str s) → parse_decimal_string s = Option.none →
        coerce_float_field v = Except.ok 0)
    ∧ (∀ s, v = some (PyVal.str s) → parse_int_string s = Option.none →
        coerce_int_field v = Except.ok 0)
    ∧ (coerce_float_field Option.none = Except.ok 0
        ∧ coerce_int_field Option.none = Except.ok 0)
    ∧ (coerce_float_field v = Except.error PyErr.typeError ↔ v = some PyVal.none)
    ∧ (coerce_int_field v = Except.error PyErr.typeError ↔ v = some PyVal.none) := by
  refine ⟨?_, ?_, ⟨rfl, rfl⟩, ?_, ?_⟩
  · intro s hv hs
    subst hv
    simp only [coerce_float_field, Option.getD_some, py_float, hs]
  · intro s hv hs
    subst hv
    simp only [coerce_int_field, Option.getD_some, py_int, hs]
  · constructor
    · intro h
      rcases v with _ | w
      · simp only [coerce_float_field] at h
        simp [py_float] at h
      · rcases w with _ | b | n | q | s
        · rfl
        · simp [coerce_float_field, py_float] at h
        · simp [coerce_float_field, py_float] at h
        · simp [coerce_float_field, py_float] at h
        · simp only [coerce_float_field, Option.getD_some, py_float] at h
          rcases hs : parse_decimal_string s with _ | q
          · rw [hs] at h
            simp at h
          · rw [hs] at h
            simp at h
    · intro h
      subst h
      rfl
  · constructor
    · intro h
      rcases v with _ | w
      · simp only [coerce_int_field] at h
        simp [py_int] at h
      · rcases w with _ | b | n | q | s
        · rfl
        · simp [coerce_int_field, py_int] at h
        · simp [coerce_int_field, py_int] at h
        · simp [coerce_int_field, py_int] at h
        · simp only [coerce_int_field, Option.getD_some, py_int] at h
          rcases hs : parse_int_string s with _ | n
          · rw [hs] at h
            simp at h
          · rw [hs] at h
            simp at h
    · intro h
      subst h
      rfl

/-- Witness for C2: the non-numeric string "abc" is coerced to zero by
both the float-field and the int-field handlers. -/
theorem claim_C2_soft_coercion_witness :
    coerce_float_field (some (PyVal.str "abc")) = Except.ok 0
    ∧ coerce_int_field (some (PyVal.str "abc")) = Except.ok 0 :=
  ⟨(claim_C2_soft_coercion (some (PyVal.str "abc"))).1 "abc" rfl rfl,
   (claim_C2_soft_coercion (some (PyVal.str "abc"))).2.1 "abc" rfl rfl⟩

/-- C3, confirmed: on the selection step (lines 690-710), if the
pre-truncation pool has an ambitious card and the truncated top-N has
none, the result is exactly the truncated list plus the first ambitious
card of the pool appended at the end, of length `requested_count + 1`;
otherwise the truncated list is returned unchanged. -/
theorem claim_C3_ambitious_guarantee (pool : List RecommendationCard) (rc : ℕ) :
    (((∃ c ∈ pool, c.level_band = "ambitious")
        ∧ (∀ c ∈ (List.insertionSort card_le pool).take rc, c.level_band ≠ "ambitious")) →
      ∃ a rest, pool.filter (fun c => c.level_band == "ambitious") = a :: rest
        ∧ a.level_band = "ambitious"
        ∧ select_items pool rc = (List.insertionSort card_le pool).take rc ++ [a]
        ∧ (select_items pool rc).length = rc + 1)
    ∧ (((∃ c ∈ (List.insertionSort card_le pool).take rc, c.level_band = "ambitious")
          ∨ (∀ c ∈ pool, c.level_band ≠ "ambitious")) →
        select_items pool rc = (List.insertionSort card_le pool).take rc) := by
  constructor
  · rintro ⟨⟨c0, hc0, hc0amb⟩, htr⟩
    have hany : ¬(((List.insertionSort card_le pool).take rc).any
        (fun c => c.level_band == "ambitious") = true) := by
      intro h
      rcases List.any_eq_true.mp h with ⟨x, hx, hxb⟩
      exact htr x hx (by simpa using hxb)
    rcases hfil : pool.filter (fun c => c.level_band == "ambitious") with _ | ⟨a, rest⟩
    · exfalso
      have hmem : c0 ∈ pool.filter (fun c => c.level_band == "ambitious") :=
        List.mem_filter.mpr ⟨hc0, by simp [hc0amb]⟩
      rw [hfil] at hmem
      simp at hmem
    · have hsel : select_items pool rc
          = (List.insertionSort card_le pool).take rc ++ [a] := by
        simp only [select_items]
        rw [if_neg hany]
        simp only [hfil]
      have hlen_take : ((List.insertionSort card_le pool).take rc).length = rc := by
        have hmem : c0 ∈ List.insertionSort card_le pool :=
          (List.perm_insertionSort card_le pool).mem_iff.mpr hc0
        by_contra hne
        have hmin := List.length_take rc (List.insertionSort card_le pool)
        have hle : (List.insertionSort card_le pool).length ≤ rc := by omega
        have heq : (List.insertionSort card_le pool).take rc
            = List.insertionSort card_le pool := List.take_of_length_le hle
        exact htr c0 (by rw [heq]; exact hmem) hc0amb
      refine ⟨a, rest, hfil, (filter_head_ambitious hfil).1, hsel, ?_⟩
      rw [hsel]
      simp [hlen_take]
  · rintro (⟨c0, hc0, hc0amb⟩ | hnone)
    · have hany : ((List.insertionSort card_le pool).take rc).any
          (fun c => c.level_band == "ambitious") = true :=
        List.any_eq_true.mpr ⟨c0, hc0, by simp [hc0amb]⟩
      simp only [select_items]
      rw [if_pos hany]
    · have hfil : pool.filter (fun c => c.level_band == "ambitious") = [] := by
        rw [List.filter_eq_nil_iff]
        intro c hc
        simpa using hnone c hc
      simp only [select_items]
      by_cases hany : ((List.insertionSort card_le pool).take rc).any
          (fun c => c.level_band == "ambitious") = true
      · rw [if_pos hany]
      · rw [if_neg hany]
        simp only [hfil]

/-- Witness for C3: on the two-card pool `pool3` with `requested_count`
1 the truncation keeps only the safe card and the ambitious card is
appended (length 2); with `requested_count` 2 the truncation already
contains it and is returned unchanged. -/
theorem claim_C3_ambitious_guarantee_witness :
    (∃ a rest, pool3.filter (fun c => c.level_band == "ambitious") = a :: rest
      ∧ a.level_band = "ambitious"
      ∧ select_items pool3 1 = (List.insertionSort card_le pool3).take 1 ++ [a]
      ∧ (select_items pool3 1).length = 1 + 1)
    ∧ select_items pool3 2 = (List.insertionSort card_le pool3).take 2 :=
  ⟨(claim_C3_ambitious_guarantee pool3 1).1
      ⟨⟨card_amb, by decide, by decide⟩, by decide⟩,
   (claim_C3_ambitious_guarantee pool3 2).2
      (Or.inl ⟨card_amb, by decide, by decide⟩)⟩

/-- C4, confirmed: `classify_level` is the banded function of
`diff = cgpa − min_cgpa` stated in the spec, lower edges inclusive, and
returns "unknown" exactly on a `None` minimum. -/
theorem claim_C4_classify_bands (cgpa m : ℚ) :
    classify_level cgpa Option.none = "unknown"
    ∧ (1 ≤ cgpa - m → classify_level cgpa (some m) = "safe")
    ∧ (0 ≤ cgpa - m → cgpa - m < 1 → classify_level cgpa (some m) = "moderate")
    ∧ (-(0.5 : ℚ) ≤ cgpa - m → cgpa - m < 0 → classify_level cgpa (some m) = "ambitious")
    ∧ (cgpa - m < -(0.5 : ℚ) → classify_level cgpa (some m) = "reject") := by
  refine ⟨rfl, fun h => ?_, fun h h2 => ?_, fun h h2 => ?_, fun h => ?_⟩ <;>
    (rw [classify_level_some]; split_ifs with h3 h4 h5 <;> first | rfl | linarith)

/-- Witness for C4: the band boundaries at a floor of 7, including the
inclusive edges diff = 1 (safe), diff = 0 (moderate), diff = −0.5
(ambitious). -/
theorem claim_C4_classify_bands_witness :
    classify_level 8 (some 7) = "safe"
    ∧ classify_level 7 (some 7) = "moderate"
    ∧ classify_level (6.5 : ℚ) (some 7) = "ambitious"
    ∧ classify_level 6 (some 7) = "reject" :=
  ⟨(claim_C4_classify_bands 8 7).2.1 (by norm_num),
   (claim_C4_classify_bands 7 7).2.2.1 (by norm_num) (by norm_num),
   (claim_C4_classify_bands 6.5 7).2.2.2.1 (by norm_num) (by norm_num),
   (claim_C4_classify_bands 6 7).2.2.2.2 (by norm_num)⟩

/-- C5, confirmed: `budget_fit_label` returns "unknown" whenever
budget ≤ 0, and otherwise the three bands with the stated inclusive
boundaries (total = 0.8×budget is very_comfortable, total = budget is
tight_but_possible). -/
theorem claim_C5_budget_fit (total_cost budget : ℚ) :
    (budget ≤ 0 → budget_fit_label total_cost budget = "unknown")
    ∧ (0 < budget → total_cost ≤ (0.8 : ℚ) * budget →
        budget_fit_label total_cost budget = "very_comfortable")
    ∧ (0 < budget → (0.8 : ℚ) * budget < total_cost → total_cost ≤ budget →
        budget_fit_label total_cost budget = "tight_but_possible")
    ∧ (0 < budget → budget < total_cost →
        budget_fit_label total_cost budget = "over_budget") := by
  refine ⟨fun h => ?_, fun h h2 => ?_, fun h h2 h3 => ?_, fun h h2 => ?_⟩ <;>
    (unfold budget_fit_label; split_ifs with h4 h5 h6 <;> first | rfl | linarith)

/-- Witness for C5: budget 0 is unknown regardless of cost; with budget
30, cost 24 (= 0.8×30) is very_comfortable, cost 30 (= budget) is
tight_but_possible and cost 31 is over_budget. -/
theorem claim_C5_budget_fit_witness :
    budget_fit_label 10 0 = "unknown"
    ∧ budget_fit_label 24 30 = "very_comfortable"
    ∧ budget_fit_label 30 30 = "tight_but_possible"
    ∧ budget_fit_label 31 30 = "over_budget" :=
  ⟨(claim_C5_budget_fit 10 0).1 (by norm_num),
   (claim_C5_budget_fit 24 30).2.1 (by norm_num) (by norm_num),
   (claim_C5_budget_fit 30 30).2.2.1 (by norm_num) (by norm_num) (by norm_num),
   (claim_C5_budget_fit 31 30).2.2.2 (by norm_num) (by norm_num)⟩

/-- C6, confirmed: the English check returns (false, true) for a missing,
empty or unrecognized proof type regardless of score; for ielts/pte/
duolingo it is satisfied when the course states no minimum for that test
and otherwise compares the score against it; for inter/medium it passes
exactly when both the course flag and the country flag allow it. -/
theorem claim_C6_english_check (lookup : String → Option Country) (course : Course)
    (p : StudentProfile) :
    ((p.english_proof_type = "none" ∨ p.english_proof_type = "") →
        english_ok_for_course lookup course p = (false, true))
    ∧ (p.english_proof_type = "ielts" →
        (course.min_ielts_overall = Option.none →
            english_ok_for_course lookup course p = (true, false))
        ∧ (∀ m0, course.min_ielts_overall = some m0 →
            english_ok_for_course lookup course p
              = (decide (p.english_score ≥ m0), decide (p.english_score < m0))))
    ∧ (p.english_proof_type = "pte" →
        (course.min_pte_overall = Option.none →
            english_ok_for_course lookup course p = (true, false))
        ∧ (∀ m0, course.min_pte_overall = some m0 →
            english_ok_for_course lookup course p
              = (decide (p.english_score ≥ m0), decide (p.english_score < m0))))
    ∧ (p.english_proof_type = "duolingo" →
        (course.min_duolingo = Option.none →
            english_ok_for_course lookup course p = (true, false))
        ∧ (∀ m0, course.min_duolingo = some m0 →
            english_ok_for_course lookup course p
              = (decide (p.english_score ≥ m0), decide (p.english_score < m0))))
    ∧ ((p.english_proof_type = "inter" ∨ p.english_proof_type = "medium") →
        (course.inter_english_ok = true →
            ((lookup p.country_code).map Country.allow_inter_english).getD false = true →
            english_ok_for_course lookup course p = (true, false))
        ∧ (¬(course.inter_english_ok = true
              ∧ ((lookup p.country_code).map Country.allow_inter_english).getD false = true) →
            english_ok_for_course lookup course p = (false, true)))
    ∧ (p.english_proof_type ∉
          (["none", "", "ielts", "pte", "duolingo", "inter", "medium"] : List String) →
        english_ok_for_course lookup course p = (false, true)) := by
  refine ⟨?_, ?_, ?_, ?_, ?_, ?_⟩
  · intro hp
    simp only [english_ok_for_course, if_pos hp]
  · intro hp
    refine ⟨fun hmin => by simp [english_ok_for_course, hp, hmin],
      fun m0 hmin => by simp [english_ok_for_course, hp, hmin]⟩
  · intro hp
    refine ⟨fun hmin => by simp [english_ok_for_course, hp, hmin],
      fun m0 hmin => by simp [english_ok_for_course, hp, hmin]⟩
  · intro hp
    refine ⟨fun hmin => by simp [english_ok_for_course, hp, hmin],
      fun m0 hmin => by simp [english_ok_for_course, hp, hmin]⟩
  · intro hp
    constructor
    · intro hio hal
      rcases hp with hp | hp <;> simp [english_ok_for_course, hp, hio, hal]
    · intro hnot
      rcases hp with hp | hp <;>
        · simp only [english_ok_for_course, hp]
          rw [if_neg (by decide), if_neg (by decide), if_neg (by decide),
            if_neg (by decide), if_pos (by decide), if_neg hnot]
  · intro hnot
    have hs : p.english_proof_type ≠ "none" ∧ p.english_proof_type ≠ ""
        ∧ p.english_proof_type ≠ "ielts" ∧ p.english_proof_type ≠ "pte"
        ∧ p.english_proof_type ≠ "duolingo" ∧ p.english_proof_type ≠ "inter"
        ∧ p.english_proof_type ≠ "medium" := by
      simpa using hnot
    obtain ⟨h1, h2, h3, h4, h5, h6, h7⟩ := hs
    simp only [english_ok_for_course]
    rw [if_neg (by tauto), if_neg h3, if_neg h4, if_neg h5, if_neg (by tauto)]

/-- Witness for C6: a "none" profile always has a gap; a course with no
stated IELTS minimum satisfies an IELTS profile; an inter profile passes
a course that allows Inter English in a country that allows it; a score
of 6.5 meets an IELTS minimum of 6. -/
theorem claim_C6_english_check_witness :
    english_ok_for_course lookup_uk course_fix profile_none = (false, true)
    ∧ english_ok_for_course lookup_uk course_nomin profile_fix = (true, false)
    ∧ english_ok_for_course lookup_uk course_inter profile_inter = (true, false)
    ∧ english_ok_for_course lookup_uk course_fix profile_fix = (true, false) :=
  ⟨(claim_C6_english_check lookup_uk course_fix profile_none).1 (Or.inl rfl),
   ((claim_C6_english_check lookup_uk course_nomin profile_fix).2.1 rfl).1 rfl,
   ((claim_C6_english_check lookup_uk course_inter profile_inter).2.2.2.2.1
      (Or.inl rfl)).1 rfl rfl,
   (((claim_C6_english_check lookup_uk course_fix profile_fix).2.1 rfl).2 6 rfl).trans
     (by decide)⟩

/-- C7, confirmed: the hard filter never lets through a course whose
normalised `min_cgpa_india` classifies the profile's CGPA as "reject",
and no card in the response carries level_band "reject". -/
theorem claim_C7_never_reject (flat : List Merged) (lookup : String → Option Country)
    (country : Country) (p : StudentProfile) (scs : List String) (rc : ℕ) :
    (∀ m : Merged, passes_filter p scs m = true →
        classify_level p.cgpa (some (or_zero m.course.min_cgpa_india)) ≠ "reject")
    ∧ (∀ c ∈ (recommend_core flat lookup country p scs rc).recommendations,
        c.level_band ≠ "reject") := by
  refine ⟨fun m hm => passes_filter_not_reject hm, fun c hc => ?_⟩
  have hrec : (recommend_core flat lookup country p scs rc).recommendations
      = select_items ((flat.filter (passes_filter p scs)).filterMap
          (fun m => build_course_response lookup m p)) rc := rfl
  rw [hrec] at hc
  rcases List.mem_filterMap.mp (mem_select_items hc) with ⟨m, _, hbuild⟩
  exact (build_level_band hbuild).2

/-- Witness for C7: the one-course UK catalog passes the filter at CGPA
8.2 against a floor of 7 and the resulting card is not "reject". -/
theorem claim_C7_never_reject_witness :
    classify_level profile_fix.cgpa (some (or_zero merged_fix.course.min_cgpa_india))
        ≠ "reject"
    ∧ card_fix.level_band ≠ "reject" :=
  ⟨(claim_C7_never_reject [merged_fix] lookup_uk country_uk profile_fix [] 5).1
      merged_fix (by decide),
   (claim_C7_never_reject [merged_fix] lookup_uk country_uk profile_fix [] 5).2
      card_fix (by decide)⟩

/-- C8, confirmed: the recommendation list of every response is sorted
ascending by the key (level_band_rank, total_first_year_cost_lakhs): in
particular no "moderate" card precedes a "safe" one and within an equal
band the cost is non-decreasing. -/
theorem claim_C8_sorted (flat : List Merged) (lookup : String → Option Country)
    (country : Country) (p : StudentProfile) (scs : List String) (rc : ℕ) :
    List.Sorted card_le (recommend_core flat lookup country p scs rc).recommendations := by
  have hrec : (recommend_core flat lookup country p scs rc).recommendations
      = select_items ((flat.filter (passes_filter p scs)).filterMap
          (fun m => build_course_response lookup m p)) rc := rfl
  rw [hrec]
  apply sorted_select_items
  intro c hc
  rcases List.mem_filterMap.mp hc with ⟨m, _, hbuild⟩
  exact build_band_three hbuild

/-- C9, confirmed: every record surviving the filter yields a card
(`build_course_response` is never `None` on filtered input, since both
sites normalise `min_cgpa_india` with the same `or 0` and classify the
same CGPA), so the pre-truncation pool size equals
`stats.total_matches_before_limit`. -/
theorem claim_C9_build_total (flat : List Merged) (lookup : String → Option Country)
    (country : Country) (p : StudentProfile) (scs : List String) (rc : ℕ) :
    (∀ m ∈ flat.filter (passes_filter p scs),
        build_course_response lookup m p ≠ Option.none)
    ∧ ((flat.filter (passes_filter p scs)).filterMap
          (fun m => build_course_response lookup m p)).length
        = (recommend_core flat lookup country p scs rc).stats.total_matches_before_limit := by
  have h1 : ∀ m ∈ flat.filter (passes_filter p scs),
      build_course_response lookup m p ≠ Option.none := fun m hm =>
    build_ne_none_of_passes (List.mem_filter.mp hm).2
  refine ⟨h1, ?_⟩
  have h2 : (recommend_core flat lookup country p scs rc).stats.total_matches_before_limit
      = (flat.filter (passes_filter p scs)).length := rfl
  rw [h2]
  exact length_filterMap_of_ne_none _ _ h1

/-- Witness for C9: on the one-course UK catalog the filtered record
builds a card. -/
theorem claim_C9_build_total_witness :
    build_course_response lookup_uk merged_fix profile_fix ≠ Option.none :=
  (claim_C9_build_total [merged_fix] lookup_uk country_uk profile_fix [] 5).1
    merged_fix (by decide)

/-- C10, confirmed: no card ever carries level_band "unknown" (the `or 0`
normalisation means `classify_level` never receives `None` in the
pipeline), hence safe_count + moderate_count + ambitious_count =
total_shown. -/
theorem claim_C10_no_unknown (flat : List Merged) (lookup : String → Option Country)
    (country : Country) (p : StudentProfile) (scs : List String) (rc : ℕ) :
    (∀ c ∈ (recommend_core flat lookup country p scs rc).recommendations,
        c.level_band ≠ "unknown")
    ∧ (recommend_core flat lookup country p scs rc).stats.safe_count
        + (recommend_core flat lookup country p scs rc).stats.moderate_count
        + (recommend_core flat lookup country p scs rc).stats.ambitious_count
      = (recommend_core flat lookup country p scs rc).stats.total_shown := by
  constructor
  · intro c hc
    rcases mem_recommendations_band_three hc with h | h | h <;> simp [h]
  · have hband : ∀ c ∈ (recommend_core flat lookup country p scs rc).recommendations,
        c.level_band = "safe" ∨ c.level_band = "moderate"
          ∨ c.level_band = "ambitious" := fun c hc => mem_recommendations_band_three hc
    exact countP_bands _ hband

/-- Witness for C10: the card recommended on the one-course UK catalog is
not "unknown". -/
theorem claim_C10_no_unknown_witness : card_fix.level_band ≠ "unknown" :=
  (claim_C10_no_unknown [merged_fix] lookup_uk country_uk profile_fix [] 5).1
    card_fix (by decide)

end Beast
